import Mathlib

/-!
Verification development for the GaiaLab Jupyter magic extension
(`jupyter-extension/gaialab_magic.py`).

The Python module defines a single cell magic `gaialab` that
  1. parses a gene list from the magic's line argument,
  2. parses `key: value` parameters from the cell body,
  3. issues one HTTP POST to a configurable endpoint, and
  4. renders the JSON reply in one of three formats
     (`rich`, `simple`, `dataframe`),
storing the parsed reply in the notebook variable `gaialab_result` on
success and catching timeouts and all other exceptions.

The embedding below models Python strings as Lean strings (char lists),
JSON values as an inductive `Json` with rational numbers standing for
Python floats, the network as an oracle function from the request to a
`NetResult`, displayed output as structured `Display` values, and Python
exceptions as the `Except String` monad.  Operations that Python would
raise on (e.g. calling `.get` on a non-dict, `len` on a number,
formatting a non-number with `:.2e`) return `.error` in the model.
-/

namespace GaiaLab

/-- ASCII model of the whitespace characters recognised by Python's
`str.strip` (space, tab, newline, carriage return, vertical tab, form feed). -/
def pyIsSpace (c : Char) : Bool :=
  c = ' ' || c = '\t' || c = '\n' || c = '\r' || c = '\x0b' || c = '\x0c'

/-- `str.strip()` on the underlying character list: drop leading and
trailing whitespace. -/
def stripList (l : List Char) : List Char :=
  ((l.dropWhile pyIsSpace).reverse.dropWhile pyIsSpace).reverse

/-- Python `s.strip()`. -/
def pyStrip (s : String) : String := ⟨stripList s.data⟩

/-- Python `s.upper()` (ASCII model). -/
def pyUpper (s : String) : String := ⟨s.data.map Char.toUpper⟩

/-- Python `s.split(sep)` for a single-character separator, on the
underlying character list.  Like Python's `split`, it returns one more
fragment than there are separators; `"".split(sep) == ['']`. -/
def splitChar (sep : Char) : List Char → List (List Char)
  | [] => [[]]
  | c :: cs =>
    if c = sep then [] :: splitChar sep cs
    else
      match splitChar sep cs with
      | [] => [[c]]
      | h :: t => (c :: h) :: t

/-- Python `s.split(sep)` for a single-character separator. -/
def pySplitOn (sep : Char) (s : String) : List String :=
  (splitChar sep s.data).map (fun l => ⟨l⟩)

/-- Line 48 of `gaialab_magic.py`:
`genes = [g.strip().upper() for g in line.split(',') if g.strip()]`. -/
def parseGenes (line : String) : List String :=
  ((pySplitOn ',' line).filter (fun g => pyStrip g != "")).map
    (fun g => pyUpper (pyStrip g))

/-- The gene-list parse as the spec words it: the comma-separated
fragments of the line, each trimmed and upper-cased, with fragments
that are empty or whitespace-only dropped, order preserved and
duplicates kept. -/
def parseGenesSpec (line : String) : List String :=
  (pySplitOn ',' line).filterMap (fun g =>
    if g.data.all pyIsSpace then none else some (pyUpper (pyStrip g)))

/-- First-match lookup in an association list (Python dict read). -/
def assocGet (k : String) : List (String × α) → Option α
  | [] => none
  | (k₂, v) :: rest => if k₂ = k then some v else assocGet k rest

/-- Python dict assignment `d[k] = v`: replace the value of an existing
key in place, otherwise append the new binding. -/
def assocSet (k : String) (v : α) : List (String × α) → List (String × α)
  | [] => [(k, v)]
  | (k₂, v₂) :: rest =>
    if k₂ = k then (k₂, v) :: rest else (k₂, v₂) :: assocSet k v rest

/-- Python `l.split(sep, 1)` on the character list, meaningful when
`sep` occurs in `l`: the characters before the first `sep` and the
characters after it. -/
def splitFirst (sep : Char) : List Char → List Char × List Char
  | [] => ([], [])
  | c :: cs =>
    if c = sep then ([], cs)
    else
      let r := splitFirst sep cs
      (c :: r.1, r.2)

/-- Lines 57-59 of `gaialab_magic.py`: the contribution of one cell
line to the parameter dict.  A line without a colon is skipped; a line
with a colon is split at the first colon, and the trimmed key is bound
to the trimmed value. -/
def paramStep (d : List (String × String)) (line : String) :
    List (String × String) :=
  if ':' ∈ line.data then
    assocSet (pyStrip ⟨(splitFirst ':' line.data).1⟩)
      (pyStrip ⟨(splitFirst ':' line.data).2⟩) d
  else d

/-- Line 56: `cell.strip().split('\n')`. -/
def pyLines (cell : String) : List String := pySplitOn '\n' (pyStrip cell)

/-- Lines 55-59: the parameter dict built line by line from the cell body. -/
def parseParams (cell : String) : List (String × String) :=
  (pyLines cell).foldl paramStep []

/-- Python `d.get(k, dflt)` for the string-to-string parameter dict. -/
def pyDictGetD (d : List (String × String)) (k dflt : String) : String :=
  match assocGet k d with
  | some v => v
  | none => dflt

/-- Line 61: `params.get('disease', 'cancer')`. -/
def diseaseContextOf (cell : String) : String :=
  pyDictGetD (parseParams cell) "disease" "cancer"

/-- Line 62: `params.get('audience', 'researcher')`. -/
def audienceOf (cell : String) : String :=
  pyDictGetD (parseParams cell) "audience" "researcher"

/-- Line 63: `params.get('format', 'rich')`. -/
def outputFormatOf (cell : String) : String :=
  pyDictGetD (parseParams cell) "format" "rich"

/-- JSON values as delivered by `response.json()`.  Python floats are
modelled as rationals. -/
inductive Json where
  | null
  | bool (b : Bool)
  | num (q : Rat)
  | str (s : String)
  | arr (elems : List Json)
  | obj (fields : List (String × Json))

/-- Python `d.get(k, dflt)` on a JSON value: only dicts support `.get`;
on anything else Python raises `AttributeError`. -/
def pyGet (j : Json) (k : String) (dflt : Json) : Except String Json :=
  match j with
  | .obj fields =>
    match assocGet k fields with
    | some v => .ok v
    | none => .ok dflt
  | _ => .error "AttributeError: object has no attribute get"

/-- Python `len` on a JSON value: defined for lists, strings and dicts,
`TypeError` otherwise. -/
def pyLen : Json → Except String Nat
  | .arr xs => .ok xs.length
  | .str s => .ok s.length
  | .obj fields => .ok fields.length
  | _ => .error "TypeError: object has no len"

/-- Python slicing `x[:n]`: defined for lists and strings, `TypeError`
otherwise. -/
def pySlice (n : Nat) : Json → Except String Json
  | .arr xs => .ok (.arr (xs.take n))
  | .str s => .ok (.str ⟨s.data.take n⟩)
  | _ => .error "TypeError: object is not subscriptable"

/-- Coerce a JSON value to a number the way Python arithmetic and
numeric format specifiers accept them: numbers directly, booleans as
0/1, anything else raises. -/
def requireNum : Json → Except String Rat
  | .num q => .ok q
  | .bool b => .ok (if b then 1 else 0)
  | _ => .error "TypeError: a number is required"

/-- A value on which Python's `str.upper` is about to be called: only
strings qualify, anything else raises `AttributeError`. -/
def requireStr : Json → Except String String
  | .str s => .ok s
  | _ => .error "AttributeError: object has no attribute upper"

/-- A JSON value being iterated as a list of items.  Python would also
iterate strings and dicts, but every such iteration in this module
immediately calls `.get` on the items, which raises on the resulting
strings; the model raises at the iteration itself. -/
def requireArr : Json → Except String (List Json)
  | .arr xs => .ok xs
  | _ => .error "TypeError: object is not iterable"

/-- Python `int(x)` on a rational: truncation toward zero. -/
def pyTrunc (q : Rat) : Int := Int.tdiv q.num (Int.ofNat q.den)

/-- A cell of a displayed table: either a raw JSON value, the
percent-formatted importance score, or a computed length. -/
inductive Cell where
  | json (j : Json)
  | percent (q : Rat)
  | count (n : Nat)

/-- One row of a pandas DataFrame built from a Python dict: the
column-name/value pairs in insertion order. -/
abbrev DRow : Type := List (String × Cell)

/-- Fold new column names into an accumulated column list, keeping
first-appearance order (pandas column inference from a list of dicts). -/
def addCols (acc : List String) (ks : List String) : List String :=
  ks.foldl (fun a k => if a.contains k then a else a ++ [k]) acc

/-- Column list of a DataFrame built from a list of dict rows. -/
def dfColumnsFrom (acc : List String) : List DRow → List String
  | [] => acc
  | r :: rs => dfColumnsFrom (addCols acc (r.map Prod.fst)) rs

/-- Columns of the DataFrame `pd.DataFrame(rows)`. -/
def dfColumns (rows : List DRow) : List String := dfColumnsFrom [] rows

/-- `Except`-monad `mapM` written with explicit matches (the shape of a
Python `for` loop that appends one element per iteration and may raise). -/
def exMapM (f : α → Except String β) : List α → Except String (List β)
  | [] => .ok []
  | a :: as =>
    match f a with
    | .error m => .error m
    | .ok b =>
      match exMapM f as with
      | .error m => .error m
      | .ok bs => .ok (b :: bs)

/-- `Except`-monad filter (a Python list comprehension whose predicate
may raise). -/
def exFilter (f : α → Except String Bool) : List α → Except String (List α)
  | [] => .ok []
  | a :: as =>
    match f a with
    | .error m => .error m
    | .ok b =>
      match exFilter f as with
      | .error m => .error m
      | .ok rest => .ok (if b then a :: rest else rest)

/-- Lines 198-203: the dict built for one gene row of the genes
DataFrame.  `Importance` is `f-string` formatted from
`gene.get('importanceScore', 0) * 100`, which raises on non-numbers. -/
def geneRow (g : Json) : Except String DRow :=
  match pyGet g "symbol" Json.null with
  | .error m => .error m
  | .ok sym =>
    match pyGet g "name" Json.null with
    | .error m => .error m
    | .ok nm =>
      match pyGet g "importanceScore" (Json.num 0) with
      | .error m => .error m
      | .ok sc =>
        match requireNum sc with
        | .error m => .error m
        | .ok q =>
          match pyGet g "uniprotId" Json.null with
          | .error m => .error m
          | .ok up =>
            .ok [("Symbol", Cell.json sym), ("Name", Cell.json nm),
                 ("Importance", Cell.percent (q * 100)),
                 ("UniProt", Cell.json up)]

/-- Lines 212-218: the dict built for one pathway row of the pathways
DataFrame. -/
def pathwayRow (p : Json) : Except String DRow :=
  match pyGet p "name" Json.null with
  | .error m => .error m
  | .ok nm =>
    match pyGet p "pvalue" (Json.num 0) with
    | .error m => .error m
    | .ok pv =>
      match pyGet p "significance" Json.null with
      | .error m => .error m
      | .ok sg =>
        match pyGet p "confidence" Json.null with
        | .error m => .error m
        | .ok cf =>
          match pyGet p "genesInPathway" (Json.arr []) with
          | .error m => .error m
          | .ok gp =>
            match pyLen gp with
            | .error m => .error m
            | .ok n =>
              .ok [("Pathway", Cell.json nm), ("P-value", Cell.json pv),
                   ("Significance", Cell.json sg),
                   ("Confidence", Cell.json cf), ("Genes", Cell.count n)]

/-- Lines 196-203: the rows of the genes DataFrame, one per element of
`result.get('genes', [])`. -/
def genesRows (result : Json) : Except String (List DRow) :=
  match pyGet result "genes" (Json.arr []) with
  | .error m => .error m
  | .ok gj =>
    match requireArr gj with
    | .error m => .error m
    | .ok gs => exMapM geneRow gs

/-- Lines 210-218: the rows of the pathways DataFrame, one per element
of `result.get('pathways', [])[:10]`. -/
def pathwaysRows (result : Json) : Except String (List DRow) :=
  match pyGet result "pathways" (Json.arr []) with
  | .error m => .error m
  | .ok pj =>
    match requireArr pj with
    | .error m => .error m
    | .ok ps => exMapM pathwayRow (ps.take 10)

/-- One gene card of the rich HTML view (lines 128-136). -/
structure GeneBlock where
  symbol : Json
  name : Json
  functionText : Json
  importance : Int

/-- One significant-pathway card of the rich HTML view (lines 142-151). -/
structure PathwayBlock where
  name : Json
  pvalue : Rat
  confidence : String
  rationale : Json

/-- One therapeutic-strategy card of the rich HTML view (lines 157-165). -/
structure StrategyBlock where
  label : Json
  riskLevel : String
  confidence : String
  rationale : Json

/-- The data interpolated into the rich HTML view (`_display_rich`). -/
structure RichView where
  disease : String
  genesCount : Nat
  pathwaysCount : Nat
  citationsCount : Nat
  analysisTime : Json
  aiModel : Json
  geneBlocks : List GeneBlock
  sigPathways : List PathwayBlock
  strategies : List StrategyBlock

/-- The data printed by the simple text view (`_display_simple`). -/
structure SimpleView where
  disease : String
  geneSymbols : String
  pathwaysCount : Nat
  citationsCount : Nat
  analysisTime : Json
  topPathways : List (Json × Rat)

/-- Lines 128-135: one iteration of the gene loop of `_display_rich`.
`importance = int(gene.get('importanceScore', 0) * 100)`; the function
text is sliced to 200 characters. -/
def geneBlock (g : Json) : Except String GeneBlock := do
  let sc ← pyGet g "importanceScore" (Json.num 0)
  let q ← requireNum sc
  let sym ← pyGet g "symbol" Json.null
  let nm ← pyGet g "name" (Json.str "N/A")
  let fn ← pyGet g "function" (Json.str "No function available")
  let fnSliced ← pySlice 200 fn
  pure { symbol := sym, name := nm, functionText := fnSliced,
         importance := pyTrunc (q * 100) }

/-- Line 139: `p.get('significance') == 'significant'`. -/
def isSignificant (p : Json) : Except String Bool := do
  let s ← pyGet p "significance" Json.null
  pure (match s with | .str t => t == "significant" | _ => false)

/-- Lines 142-151: one significant-pathway card.  The p-value is fed to
the `:.2e` format specifier (raises on non-numbers) and the confidence
is upper-cased (raises on non-strings). -/
def pathwayBlock (p : Json) : Except String PathwayBlock := do
  let pv ← pyGet p "pvalue" (Json.num 0)
  let q ← requireNum pv
  let nm ← pyGet p "name" Json.null
  let cf ← pyGet p "confidence" (Json.str "N/A")
  let cfs ← requireStr cf
  let rt ← pyGet p "rationale" (Json.str "")
  let rts ← pySlice 200 rt
  pure { name := nm, pvalue := q, confidence := pyUpper cfs,
         rationale := rts }

/-- Lines 157-165: one therapeutic-strategy card. -/
def strategyBlock (st : Json) : Except String StrategyBlock := do
  let lb ← pyGet st "label" Json.null
  let rl ← pyGet st "riskLevel" (Json.str "N/A")
  let rls ← requireStr rl
  let cf ← pyGet st "confidence" (Json.str "N/A")
  let cfs ← requireStr cf
  let rt ← pyGet st "rationale" (Json.str "")
  let rts ← pySlice 200 rt
  pure { label := lb, riskLevel := pyUpper rls, confidence := pyUpper cfs,
         rationale := rts }

/-- `_display_rich` (lines 111-179): the rich HTML view is built as one
string and displayed once at the end, so an exception anywhere while
building it displays nothing. -/
def displayRich (result : Json) (genes : List String) (disease : String) :
    Except String RichView := do
  let gj ← pyGet result "genes" (Json.arr [])
  let gn ← pyLen gj
  let pj ← pyGet result "pathways" (Json.arr [])
  let pn ← pyLen pj
  let cj ← pyGet result "citations" (Json.arr [])
  let cn ← pyLen cj
  let aTime ← pyGet result "analysisTime" (Json.str "N/A")
  let dsj ← pyGet result "dataSource" (Json.obj [])
  let ai ← pyGet dsj "ai" (Json.str "GPT-4o")
  let gs ← requireArr gj
  let blocks ← exMapM geneBlock (gs.take 5)
  let ps ← requireArr pj
  let sig ← exFilter isSignificant ps
  let sigBlocks ← exMapM pathwayBlock (sig.take 5)
  let stj ← pyGet result "strategies" (Json.arr [])
  let sts ← requireArr stj
  let stBlocks ← exMapM strategyBlock (sts.take 3)
  pure { disease := disease, genesCount := gn, pathwaysCount := pn,
         citationsCount := cn, analysisTime := aTime, aiModel := ai,
         geneBlocks := blocks, sigPathways := sigBlocks,
         strategies := stBlocks }

/-- Python `', '.join`. -/
def joinComma (l : List String) : String := String.intercalate ", " l

/-- `_display_simple` (lines 181-191): the printed summary.  The
symbol join raises on non-string symbols; the top-pathway p-values are
fed to `:.2e`. -/
def displaySimple (result : Json) (genes : List String) (disease : String) :
    Except String SimpleView := do
  let gj ← pyGet result "genes" (Json.arr [])
  let gs ← requireArr gj
  let syms ← exMapM (fun g => do
      let s ← pyGet g "symbol" Json.null
      requireStr s) gs
  let pj ← pyGet result "pathways" (Json.arr [])
  let pn ← pyLen pj
  let cj ← pyGet result "citations" (Json.arr [])
  let cn ← pyLen cj
  let aTime ← pyGet result "analysisTime" (Json.str "N/A")
  let ps ← requireArr pj
  let tops ← exMapM (fun p => do
      let nm ← pyGet p "name" Json.null
      let pv ← pyGet p "pvalue" (Json.num 0)
      let q ← requireNum pv
      pure (nm, q)) (ps.take 5)
  pure { disease := disease, geneSymbols := joinComma syms,
         pathwaysCount := pn, citationsCount := cn, analysisTime := aTime,
         topPathways := tops }

/-- One call to IPython `display`/`print`, carried as structured data. -/
inductive Display where
  | noGenesError
  | banner (genes : List String) (context : String)
  | apiError (status : Nat)
  | richView (v : RichView)
  | simpleView (v : SimpleView)
  | genesTable (rows : List DRow)
  | pathwaysTable (rows : List DRow)
  | storedNote
  | timeoutNotice
  | errorNotice (msg : String)

/-- `_display_as_dataframe` (lines 193-222): the genes table is built
and displayed first (only when non-empty), then the pathways table; an
exception while building a table keeps the displays already made.  The
result pairs the displays with the exception, if one was raised. -/
def displayAsDataframe (result : Json) : List Display × Option String :=
  match genesRows result with
  | .error m => ([], some m)
  | .ok rows =>
    let d₁ := if rows.isEmpty then [] else [Display.genesTable rows]
    match pathwaysRows result with
    | .error m => (d₁, some m)
    | .ok prows =>
      (d₁ ++ (if prows.isEmpty then [] else [Display.pathwaysTable prows]),
       none)

/-- Lines 95-100: dispatch on the `format` parameter.  `dataframe` and
`simple` are matched explicitly; every other value falls to the rich
view.  Returns the displays made and the exception raised, if any. -/
def formatResult (fmt : String) (result : Json) (genes : List String)
    (disease : String) : List Display × Option String :=
  if fmt = "dataframe" then displayAsDataframe result
  else if fmt = "simple" then
    match displaySimple result genes disease with
    | .ok v => ([Display.simpleView v], none)
    | .error m => ([], some m)
  else
    match displayRich result genes disease with
    | .ok v => ([Display.richView v], none)
    | .error m => ([], some m)

/-- One HTTP POST issued by `requests.post` (lines 78-86): the target
URL, the JSON body, and the timeout in seconds. -/
structure Request where
  url : String
  body : Json
  timeout : Nat

/-- What the network call can come back with: a `requests` timeout, any
other exception raised by `requests.post`, or a response with a status
code and a body that `response.json()` either parses or raises on. -/
inductive NetResult where
  | timeout
  | raise (msg : String)
  | response (status : Nat) (jsonBody : Except String Json)

/-- Line 23: the endpoint configured in `__init__`. -/
def defaultApiUrl : String := "http://localhost:8787/analyze"

/-- The magic's per-session state: the configured API URL. -/
structure MagicState where
  api_url : String

/-- The state after `__init__`. -/
def initMagic : MagicState := { api_url := defaultApiUrl }

/-- The `%gaialab_config` line magic (lines 25-31): replaces the
configured URL with the stripped line. -/
def gaialabConfig (st : MagicState) (line : String) : MagicState :=
  { api_url := pyStrip line }

/-- Lines 78-86: the one request the cell magic issues, built from the
parsed genes and parameters.  The JSON body has exactly the fields
`genes`, `diseaseContext` and `audience`; the timeout is 180 seconds. -/
def theRequest (apiUrl line cell : String) : Request :=
  { url := apiUrl,
    body := Json.obj
      [("genes", Json.arr ((parseGenes line).map Json.str)),
       ("diseaseContext", Json.str (diseaseContextOf cell)),
       ("audience", Json.str (audienceOf cell))],
    timeout := 180 }

/-- The observable effects of one invocation of the cell magic: the
requests issued, the displays made (in order), and the value stored
into `gaialab_result`, if any. -/
structure Outcome where
  requests : List Request
  displays : List Display
  stored : Option Json

/-- Lines 66-74: the analyzing banner displayed before the request,
showing the joined genes and the disease context. -/
def bannerOf (line cell : String) : Display :=
  Display.banner (parseGenes line) (diseaseContextOf cell)

/-- Lines 95-104: displays the formatting output (or catches the
exception it raised) and stores the parsed result on full success. -/
def handleFormatted (apiUrl line cell : String) (result : Json) :
    List Display × Option String → Outcome
  | (ds, some m) =>
    { requests := [theRequest apiUrl line cell],
      displays := bannerOf line cell :: (ds ++ [Display.errorNotice m]),
      stored := none }
  | (ds, none) =>
    { requests := [theRequest apiUrl line cell],
      displays := bannerOf line cell :: (ds ++ [Display.storedNote]),
      stored := some result }

/-- Line 92 onward: `response.json()` either raises (caught by the
generic handler) or yields the result that is formatted and stored. -/
def handleBody (apiUrl line cell : String) : Except String Json → Outcome
  | .error m =>
    { requests := [theRequest apiUrl line cell],
      displays := [bannerOf line cell, Display.errorNotice m],
      stored := none }
  | .ok result =>
    handleFormatted apiUrl line cell result
      (formatResult (outputFormatOf cell) result (parseGenes line)
        (diseaseContextOf cell))

/-- Lines 88-90: the status check; a non-200 status yields the API
error notice and nothing further happens. -/
def handleResponse (apiUrl line cell : String) (status : Nat)
    (bodyE : Except String Json) : Outcome :=
  if status = 200 then handleBody apiUrl line cell bodyE
  else
    { requests := [theRequest apiUrl line cell],
      displays := [bannerOf line cell, Display.apiError status],
      stored := none }

/-- Lines 76-109: the body of the `try` block and its two `except`
handlers, as a function of what the network call returned.  Every path
ends in an `Outcome`: the timeout handler and the generic handler turn
the two exception classes into inline notices, so no exception escapes
the magic. -/
def handleNet (apiUrl line cell : String) : NetResult → Outcome
  | .timeout =>
    { requests := [theRequest apiUrl line cell],
      displays := [bannerOf line cell, Display.timeoutNotice],
      stored := none }
  | .raise m =>
    { requests := [theRequest apiUrl line cell],
      displays := [bannerOf line cell, Display.errorNotice m],
      stored := none }
  | .response status bodyE => handleResponse apiUrl line cell status bodyE

/-- The `gaialab` cell magic (lines 33-109).  The network is an oracle
from the request to what the call returns. -/
def gaialab (apiUrl : String) (net : Request → NetResult)
    (line cell : String) : Outcome :=
  if parseGenes line = [] then
    { requests := [], displays := [Display.noGenesError], stored := none }
  else handleNet apiUrl line cell (net (theRequest apiUrl line cell))

/-- Displays that only the three formatting routines produce. -/
def isFormatDisplay : Display → Bool
  | .richView _ => true
  | .simpleView _ => true
  | .genesTable _ => true
  | .pathwaysTable _ => true
  | _ => false

/-- Whether a formatting routine produced output in this invocation. -/
def formatsRan (o : Outcome) : Bool := o.displays.any isFormatDisplay

/-- Line 103: the effect of the invocation on the notebook's user
namespace: on success `gaialab_result` is assigned the parsed reply,
otherwise the namespace is untouched. -/
def applyNs (o : Outcome) (ns : List (String × Json)) :
    List (String × Json) :=
  match o.stored with
  | some r => assocSet "gaialab_result" r ns
  | none => ns

/-! ## Lemmas about Python string stripping -/

theorem mem_of_mem_dropWhile {p : Char → Bool} {l : List Char} {x : Char}
    (h : x ∈ l.dropWhile p) : x ∈ l := by
  have hl := List.takeWhile_append_dropWhile (p := p) (l := l)
  rw [← hl]
  exact List.mem_append_right _ h

theorem stripList_eq_nil_iff (l : List Char) :
    stripList l = [] ↔ ∀ c ∈ l, pyIsSpace c := by
  unfold stripList
  rw [List.reverse_eq_nil_iff, List.dropWhile_eq_nil_iff]
  constructor
  · intro h c hc
    have hl := List.takeWhile_append_dropWhile (p := pyIsSpace) (l := l)
    rw [← hl] at hc
    rcases List.mem_append.1 hc with h₁ | h₂
    · exact List.mem_takeWhile_imp h₁
    · exact h c (List.mem_reverse.2 h₂)
  · intro h x hx
    exact h x (mem_of_mem_dropWhile (List.mem_reverse.1 hx))

theorem pyStrip_eq_empty_iff (g : String) :
    pyStrip g = "" ↔ g.data.all pyIsSpace = true := by
  constructor
  · intro h
    have hd : stripList g.data = [] := congrArg String.data h
    rw [List.all_eq_true]
    exact fun c hc => (stripList_eq_nil_iff g.data).1 hd c hc
  · intro h
    have hd : stripList g.data = [] :=
      (stripList_eq_nil_iff g.data).2 (List.all_eq_true.1 h)
    show String.mk (stripList g.data) = ""
    rw [hd]

theorem parseGenes_filter_filterMap : ∀ l : List String,
    (l.filter (fun g => pyStrip g != "")).map (fun g => pyUpper (pyStrip g))
      = l.filterMap (fun g =>
          if g.data.all pyIsSpace then none else some (pyUpper (pyStrip g))) := by
  intro l
  induction l with
  | nil => rfl
  | cons a as ih =>
    by_cases h : a.data.all pyIsSpace = true
    · have h₁ : (pyStrip a != "") = false := by
        simp only [bne_eq_false_iff_eq]
        exact (pyStrip_eq_empty_iff a).2 h
      rw [List.filter_cons, if_neg (by simp [h₁]),
        List.filterMap_cons_none (by rw [if_pos h]), ih]
    · have h₁ : (pyStrip a != "") = true := by
        simp only [bne_iff_ne, ne_eq]
        intro hh
        exact h ((pyStrip_eq_empty_iff a).1 hh)
      rw [List.filter_cons, if_pos (by simp [h₁]), List.map_cons,
        List.filterMap_cons_some (by rw [if_neg h]), ih]

/-- Claim C2: for every input line, the gene list produced by the cell
magic equals the comma-separated fragments of the line with surrounding
whitespace trimmed and letters upper-cased, with fragments that are
empty or whitespace-only dropped, preserving order and keeping
duplicates. -/
theorem parseGenes_eq_spec (line : String) :
    parseGenes line = parseGenesSpec line := by
  unfold parseGenes parseGenesSpec
  exact parseGenes_filter_filterMap (pySplitOn ',' line)

/-! ## The first-colon split of parameter lines -/

theorem splitFirst_spec : ∀ l : List Char, ':' ∈ l →
    l = (splitFirst ':' l).1 ++ ':' :: (splitFirst ':' l).2 ∧
      ':' ∉ (splitFirst ':' l).1 := by
  intro l
  induction l with
  | nil => intro h; cases h
  | cons c cs ih =>
    intro h
    by_cases hc : c = ':'
    · subst hc
      simp [splitFirst]
    · have hmem : ':' ∈ cs := by
        rcases List.mem_cons.1 h with h₁ | h₁
        · exact absurd h₁.symm hc
        · exact h₁
      obtain ⟨he, hn⟩ := ih hmem
      constructor
      · simp only [splitFirst, if_neg hc, List.cons_append]
        exact congrArg (List.cons c) he
      · simp only [splitFirst, if_neg hc]
        intro hmm
        rcases List.mem_cons.1 hmm with h₁ | h₁
        · exact hc h₁.symm
        · exact hn h₁

/-- Claim C3: for every cell body, the parameter mapping is built line
by line over the cell's lines: a line containing no colon contributes
nothing, and a line containing one or more colons is split only at its
first colon into a trimmed key (which contains no colon) and a trimmed
value (which may itself contain colons). -/
theorem params_built_line_by_line (cell : String)
    (d : List (String × String)) (line : String) :
    parseParams cell = (pyLines cell).foldl paramStep [] ∧
    (':' ∉ line.data → paramStep d line = d) ∧
    (':' ∈ line.data → ∃ k v : List Char,
      line.data = k ++ ':' :: v ∧ ':' ∉ k ∧
      paramStep d line = assocSet (pyStrip ⟨k⟩) (pyStrip ⟨v⟩) d) := by
  refine ⟨rfl, ?_, ?_⟩
  · intro h
    unfold paramStep
    rw [if_neg h]
  · intro h
    obtain ⟨he, hn⟩ := splitFirst_spec line.data h
    refine ⟨(splitFirst ':' line.data).1, (splitFirst ':' line.data).2,
      he, hn, ?_⟩
    unfold paramStep
    rw [if_pos h]

theorem params_built_line_by_line_witness :
    paramStep [] "no delimiter here" = [] ∧
    ∃ k v : List Char, ("key: a:b").data = k ++ ':' :: v ∧ ':' ∉ k ∧
      paramStep [] "key: a:b" = assocSet (pyStrip ⟨k⟩) (pyStrip ⟨v⟩) [] :=
  ⟨(params_built_line_by_line "" [] "no delimiter here").2.1 (by decide),
   (params_built_line_by_line "" [] "key: a:b").2.2 (by decide)⟩

/-- Claim C4: for every cell body, a missing `disease`, `audience` or
`format` key yields the default `cancer`, `researcher` or `rich`
respectively, and a present key yields its parsed value. -/
theorem param_defaults (cell : String) :
    (assocGet "disease" (parseParams cell) = none →
      diseaseContextOf cell = "cancer") ∧
    (∀ v, assocGet "disease" (parseParams cell) = some v →
      diseaseContextOf cell = v) ∧
    (assocGet "audience" (parseParams cell) = none →
      audienceOf cell = "researcher") ∧
    (∀ v, assocGet "audience" (parseParams cell) = some v →
      audienceOf cell = v) ∧
    (assocGet "format" (parseParams cell) = none →
      outputFormatOf cell = "rich") ∧
    (∀ v, assocGet "format" (parseParams cell) = some v →
      outputFormatOf cell = v) := by
  unfold diseaseContextOf audienceOf outputFormatOf pyDictGetD
  exact ⟨fun h => by rw [h], fun v h => by rw [h], fun h => by rw [h],
    fun v h => by rw [h], fun h => by rw [h], fun v h => by rw [h]⟩

theorem param_defaults_witness :
    diseaseContextOf "disease: flu" = "flu" ∧
    audienceOf "disease: flu" = "researcher" ∧
    outputFormatOf "disease: flu" = "rich" :=
  ⟨(param_defaults "disease: flu").2.1 "flu" rfl,
   (param_defaults "disease: flu").2.2.1 rfl,
   (param_defaults "disease: flu").2.2.2.2.1 rfl⟩

/-! ## Control flow of the cell magic -/

theorem handleFormatted_requests (apiUrl line cell : String) (result : Json)
    (p : List Display × Option String) :
    (handleFormatted apiUrl line cell result p).requests
      = [theRequest apiUrl line cell] := by
  rcases p with ⟨ds, op⟩
  cases op <;> rfl

theorem handleNet_requests (apiUrl line cell : String) (r : NetResult) :
    (handleNet apiUrl line cell r).requests = [theRequest apiUrl line cell] := by
  cases r with
  | timeout => rfl
  | raise m => rfl
  | response status bodyE =>
    show (handleResponse apiUrl line cell status bodyE).requests = _
    unfold handleResponse
    by_cases hs : status = 200
    · rw [if_pos hs]
      cases bodyE with
      | error m => rfl
      | ok result => exact handleFormatted_requests apiUrl line cell result _
    · rw [if_neg hs]

theorem formatsRan_handleNet (apiUrl line cell : String) (r : NetResult)
    (h : formatsRan (handleNet apiUrl line cell r) = true) :
    ∃ bodyE, r = NetResult.response 200 bodyE := by
  cases r with
  | timeout => simp [handleNet, formatsRan, isFormatDisplay, bannerOf] at h
  | raise m => simp [handleNet, formatsRan, isFormatDisplay, bannerOf] at h
  | response status bodyE =>
    by_cases hs : status = 200
    · exact ⟨bodyE, by rw [hs]⟩
    · rw [show handleNet apiUrl line cell (NetResult.response status bodyE)
          = handleResponse apiUrl line cell status bodyE from rfl,
        handleResponse, if_neg hs] at h
      simp [formatsRan, isFormatDisplay, bannerOf] at h

/-- Claim C1: with a non-empty parsed gene list, the magic issues
exactly one POST, to the configured URL (`http://localhost:8787/analyze`
after `__init__`), whose JSON body has exactly the fields `genes`,
`diseaseContext` and `audience`, with a fixed 180-second timeout, and a
formatting routine produces output only when the response status was
HTTP 200. -/
theorem http_contract (apiUrl line cell : String) (net : Request → NetResult)
    (h : parseGenes line ≠ []) :
    (gaialab apiUrl net line cell).requests = [theRequest apiUrl line cell] ∧
    theRequest apiUrl line cell =
      { url := apiUrl,
        body := Json.obj
          [("genes", Json.arr ((parseGenes line).map Json.str)),
           ("diseaseContext", Json.str (diseaseContextOf cell)),
           ("audience", Json.str (audienceOf cell))],
        timeout := 180 } ∧
    (formatsRan (gaialab apiUrl net line cell) = true →
      ∃ bodyE, net (theRequest apiUrl line cell) =
        NetResult.response 200 bodyE) ∧
    initMagic.api_url = "http://localhost:8787/analyze" := by
  refine ⟨?_, rfl, ?_, rfl⟩
  · unfold gaialab
    rw [if_neg h]
    exact handleNet_requests apiUrl line cell _
  · intro hf
    unfold gaialab at hf
    rw [if_neg h] at hf
    exact formatsRan_handleNet apiUrl line cell _ hf

theorem http_contract_witness :
    (gaialab defaultApiUrl (fun _ => NetResult.timeout) "TP53" "").requests
      = [theRequest defaultApiUrl "TP53" ""] ∧
    theRequest defaultApiUrl "TP53" "" =
      { url := defaultApiUrl,
        body := Json.obj
          [("genes", Json.arr ((parseGenes "TP53").map Json.str)),
           ("diseaseContext", Json.str (diseaseContextOf "")),
           ("audience", Json.str (audienceOf ""))],
        timeout := 180 } ∧
    (formatsRan (gaialab defaultApiUrl (fun _ => NetResult.timeout) "TP53" "")
        = true →
      ∃ bodyE, (fun _ => NetResult.timeout) (theRequest defaultApiUrl "TP53" "")
        = NetResult.response 200 bodyE) ∧
    initMagic.api_url = "http://localhost:8787/analyze" :=
  http_contract defaultApiUrl "TP53" "" (fun _ => NetResult.timeout) (by decide)

/-- Claim C5: a response with a status other than 200 yields exactly
the banner and an error notice carrying that status code; the response
body is not inspected, no formatting routine runs, and the result
variable is not written. -/
theorem non_200_no_processing (apiUrl line cell : String)
    (net : Request → NetResult) (status : Nat) (bodyE : Except String Json)
    (h : parseGenes line ≠ [])
    (hn : net (theRequest apiUrl line cell) = NetResult.response status bodyE)
    (hs : status ≠ 200) :
    gaialab apiUrl net line cell =
      { requests := [theRequest apiUrl line cell],
        displays := [bannerOf line cell, Display.apiError status],
        stored := none } := by
  unfold gaialab
  rw [if_neg h, hn]
  show handleResponse apiUrl line cell status bodyE = _
  unfold handleResponse
  rw [if_neg hs]

theorem non_200_no_processing_witness :
    gaialab defaultApiUrl
        (fun _ => NetResult.response 500 (Except.ok Json.null)) "TP53" "" =
      { requests := [theRequest defaultApiUrl "TP53" ""],
        displays := [bannerOf "TP53" "", Display.apiError 500],
        stored := none } :=
  non_200_no_processing defaultApiUrl "TP53" ""
    (fun _ => NetResult.response 500 (Except.ok Json.null)) 500
    (Except.ok Json.null) (by decide) rfl (by decide)

/-- Claim C6: a request timeout yields the timeout notice; any other
exception raised by the call, by response parsing, or by a formatting
routine is caught and surfaced as an inline error notice.  In every
case the outcome is an ordinary value of `Outcome` — no exception
escapes the magic — exactly one request was issued, and there is no
retry. -/
theorem exceptions_caught (apiUrl line cell : String)
    (net : Request → NetResult) (h : parseGenes line ≠ []) :
    (net (theRequest apiUrl line cell) = NetResult.timeout →
      gaialab apiUrl net line cell =
        { requests := [theRequest apiUrl line cell],
          displays := [bannerOf line cell, Display.timeoutNotice],
          stored := none }) ∧
    (∀ m, net (theRequest apiUrl line cell) = NetResult.raise m →
      gaialab apiUrl net line cell =
        { requests := [theRequest apiUrl line cell],
          displays := [bannerOf line cell, Display.errorNotice m],
          stored := none }) ∧
    (∀ m, net (theRequest apiUrl line cell) =
        NetResult.response 200 (Except.error m) →
      gaialab apiUrl net line cell =
        { requests := [theRequest apiUrl line cell],
          displays := [bannerOf line cell, Display.errorNotice m],
          stored := none }) ∧
    (∀ result ds m,
      net (theRequest apiUrl line cell) =
        NetResult.response 200 (Except.ok result) →
      formatResult (outputFormatOf cell) result (parseGenes line)
        (diseaseContextOf cell) = (ds, some m) →
      gaialab apiUrl net line cell =
        { requests := [theRequest apiUrl line cell],
          displays := bannerOf line cell :: (ds ++ [Display.errorNotice m]),
          stored := none }) := by
  refine ⟨?_, ?_, ?_, ?_⟩
  · intro hn
    unfold gaialab
    rw [if_neg h, hn]
    rfl
  · intro m hn
    unfold gaialab
    rw [if_neg h, hn]
    rfl
  · intro m hn
    unfold gaialab
    rw [if_neg h, hn]
    rfl
  · intro result ds m hn hf
    unfold gaialab
    rw [if_neg h, hn]
    show handleFormatted apiUrl line cell result
      (formatResult (outputFormatOf cell) result (parseGenes line)
        (diseaseContextOf cell)) = _
    rw [hf]
    rfl

theorem exceptions_caught_witness :
    gaialab defaultApiUrl (fun _ => NetResult.timeout) "TP53" "" =
      { requests := [theRequest defaultApiUrl "TP53" ""],
        displays := [bannerOf "TP53" "", Display.timeoutNotice],
        stored := none } :=
  (exceptions_caught defaultApiUrl "TP53" "" (fun _ => NetResult.timeout)
    (by decide)).1 rfl

/-- Claim C10: any `format` value other than `dataframe` and `simple`
selects the rich formatting routine, with behaviour identical to an
explicit `rich`. -/
theorem unknown_format_falls_to_rich (fmt : String) (result : Json)
    (genes : List String) (disease : String)
    (h₁ : fmt ≠ "dataframe") (h₂ : fmt ≠ "simple") :
    formatResult fmt result genes disease =
      formatResult "rich" result genes disease := by
  unfold formatResult
  rw [if_neg h₁, if_neg h₂, if_neg (by decide : ¬("rich" = "dataframe")),
    if_neg (by decide : ¬("rich" = "simple"))]

theorem unknown_format_falls_to_rich_witness :
    formatResult "table" (Json.obj []) ["TP53"] "cancer" =
      formatResult "rich" (Json.obj []) ["TP53"] "cancer" :=
  unknown_format_falls_to_rich "table" (Json.obj []) ["TP53"] "cancer"
    (by decide) (by decide)

/-- Claim C9: an input line with no non-whitespace fragment yields the
no-genes error notice and nothing else: no request, no result write. -/
theorem empty_genes_short_circuit (apiUrl line cell : String)
    (net : Request → NetResult) (h : parseGenes line = []) :
    gaialab apiUrl net line cell =
      { requests := [], displays := [Display.noGenesError],
        stored := none } := by
  unfold gaialab
  rw [if_pos h]

theorem empty_genes_short_circuit_witness :
    gaialab defaultApiUrl (fun _ => NetResult.timeout) " , ," "disease: flu" =
      { requests := [], displays := [Display.noGenesError],
        stored := none } :=
  empty_genes_short_circuit defaultApiUrl " , ," "disease: flu"
    (fun _ => NetResult.timeout) (by decide)

/-! ## The notebook namespace effect -/

theorem assocGet_assocSet_self (k : String) (v : α) :
    ∀ ns : List (String × α), assocGet k (assocSet k v ns) = some v := by
  intro ns
  induction ns with
  | nil => simp [assocSet, assocGet]
  | cons p rest ih =>
    rcases p with ⟨k₂, v₂⟩
    by_cases hk : k₂ = k
    · simp [assocSet, assocGet, hk]
    · simp [assocSet, assocGet, hk, ih]

theorem assocGet_assocSet_ne (k k' : String) (v : α) (hne : k' ≠ k) :
    ∀ ns : List (String × α),
      assocGet k' (assocSet k v ns) = assocGet k' ns := by
  intro ns
  induction ns with
  | nil =>
    have hkk : k ≠ k' := fun hh => hne hh.symm
    simp [assocSet, assocGet, hkk]
  | cons p rest ih =>
    rcases p with ⟨k₂, v₂⟩
    by_cases hk : k₂ = k
    · have hkk : k ≠ k' := fun hh => hne hh.symm
      simp [assocSet, assocGet, hk, hkk]
    · by_cases hk₂ : k₂ = k'
      · simp [assocSet, assocGet, hk, hk₂, hne]
      · simp [assocSet, assocGet, hk, hk₂, ih]

theorem gaialab_success (apiUrl line cell : String) (net : Request → NetResult)
    (result : Json) (ds : List Display)
    (h : parseGenes line ≠ [])
    (hn : net (theRequest apiUrl line cell) =
      NetResult.response 200 (Except.ok result))
    (hf : formatResult (outputFormatOf cell) result (parseGenes line)
      (diseaseContextOf cell) = (ds, none)) :
    gaialab apiUrl net line cell =
      { requests := [theRequest apiUrl line cell],
        displays := bannerOf line cell :: (ds ++ [Display.storedNote]),
        stored := some result } := by
  unfold gaialab
  rw [if_neg h, hn]
  show handleFormatted apiUrl line cell result
    (formatResult (outputFormatOf cell) result (parseGenes line)
      (diseaseContextOf cell)) = _
  rw [hf]
  rfl

/-- Claim C8 counterexample: an invocation whose request times out
issues the request but does not write `gaialab_result` — the claim
that the variable is overwritten on every invocation is false. -/
theorem result_not_always_written :
    (gaialab defaultApiUrl (fun _ => NetResult.timeout) "TP53" "").stored
      = none ∧
    applyNs (gaialab defaultApiUrl (fun _ => NetResult.timeout) "TP53" "") []
      = [] ∧
    assocGet "gaialab_result"
      (applyNs (gaialab defaultApiUrl (fun _ => NetResult.timeout) "TP53" "")
        []) = none :=
  ⟨rfl, rfl, rfl⟩

/-- Claim C8 (amended): `gaialab_result` is overwritten with the parsed
reply exactly on the success path (HTTP 200, body parsed, formatting
completed); on every invocation, no other binding of the user namespace
is modified. -/
theorem result_var_frame (apiUrl line cell : String)
    (net : Request → NetResult) (ns : List (String × Json)) :
    (∀ k, k ≠ "gaialab_result" →
      assocGet k (applyNs (gaialab apiUrl net line cell) ns)
        = assocGet k ns) ∧
    (∀ result ds, parseGenes line ≠ [] →
      net (theRequest apiUrl line cell) =
        NetResult.response 200 (Except.ok result) →
      formatResult (outputFormatOf cell) result (parseGenes line)
        (diseaseContextOf cell) = (ds, none) →
      assocGet "gaialab_result" (applyNs (gaialab apiUrl net line cell) ns)
        = some result) := by
  constructor
  · intro k hk
    unfold applyNs
    cases hst : (gaialab apiUrl net line cell).stored with
    | none => rfl
    | some r => exact assocGet_assocSet_ne "gaialab_result" k r hk ns
  · intro result ds h hn hf
    rw [gaialab_success apiUrl line cell net result ds h hn hf]
    unfold applyNs
    exact assocGet_assocSet_self "gaialab_result" result ns

theorem result_var_frame_witness :
    assocGet "other" (applyNs (gaialab defaultApiUrl
        (fun _ => NetResult.response 200 (Except.ok (Json.obj []))) "TP53" "")
        []) = assocGet "other" ([] : List (String × Json)) ∧
    assocGet "gaialab_result" (applyNs (gaialab defaultApiUrl
        (fun _ => NetResult.response 200 (Except.ok (Json.obj []))) "TP53" "")
        []) = some (Json.obj []) :=
  ⟨(result_var_frame defaultApiUrl "TP53" ""
      (fun _ => NetResult.response 200 (Except.ok (Json.obj []))) []).1
      "other" (by decide),
   (result_var_frame defaultApiUrl "TP53" ""
      (fun _ => NetResult.response 200 (Except.ok (Json.obj []))) []).2
      (Json.obj [])
      [Display.richView
        { disease := "cancer", genesCount := 0, pathwaysCount := 0,
          citationsCount := 0, analysisTime := Json.str "N/A",
          aiModel := Json.str "GPT-4o", geneBlocks := [], sigPathways := [],
          strategies := [] }]
      (by decide) rfl rfl⟩

/-! ## The dataframe format -/

theorem exMapM_ok_length (f : α → Except String β) :
    ∀ (l : List α) (r : List β), exMapM f l = .ok r → r.length = l.length := by
  intro l
  induction l with
  | nil =>
    intro r h
    cases h
    rfl
  | cons a as ih =>
    intro r h
    unfold exMapM at h
    split at h
    · exact Except.noConfusion h
    · split at h
      · exact Except.noConfusion h
      · next bs heq =>
          cases h
          simp [ih bs heq]

theorem exMapM_ok_mem (f : α → Except String β) :
    ∀ (l : List α) (r : List β), exMapM f l = .ok r →
      ∀ b ∈ r, ∃ a ∈ l, f a = .ok b := by
  intro l
  induction l with
  | nil =>
    intro r h b hb
    cases h
    cases hb
  | cons a as ih =>
    intro r h b hb
    unfold exMapM at h
    split at h
    · exact Except.noConfusion h
    · next b₁ heq =>
        split at h
        · exact Except.noConfusion h
        · next bs heq₂ =>
            cases h
            rcases List.mem_cons.1 hb with h₁ | h₁
            · refine ⟨a, List.mem_cons_self a as, ?_⟩
              rw [h₁]
              exact heq
            · obtain ⟨a₂, ha₂, hfa₂⟩ := ih bs heq₂ b h₁
              exact ⟨a₂, List.mem_cons_of_mem a ha₂, hfa₂⟩

theorem geneRow_keys (g : Json) (r : DRow) (h : geneRow g = .ok r) :
    r.map Prod.fst = ["Symbol", "Name", "Importance", "UniProt"] := by
  unfold geneRow at h
  repeat' split at h
  all_goals first
  | exact Except.noConfusion h
  | (cases h; rfl)

theorem pathwayRow_keys (p : Json) (r : DRow) (h : pathwayRow p = .ok r) :
    r.map Prod.fst
      = ["Pathway", "P-value", "Significance", "Confidence", "Genes"] := by
  unfold pathwayRow at h
  repeat' split at h
  all_goals first
  | exact Except.noConfusion h
  | (cases h; rfl)

theorem dfColumnsFrom_const (K : List String) (hK : addCols K K = K) :
    ∀ rows : List DRow, (∀ r ∈ rows, r.map Prod.fst = K) →
      dfColumnsFrom K rows = K := by
  intro rows
  induction rows with
  | nil => intro _; rfl
  | cons r rs ih =>
    intro hall
    unfold dfColumnsFrom
    rw [hall r (List.mem_cons_self r rs), hK]
    exact ih (fun r₂ hr₂ => hall r₂ (List.mem_cons_of_mem r hr₂))

theorem dfColumns_const (K : List String) (hK₀ : addCols [] K = K)
    (hK : addCols K K = K) (r : DRow) (rs : List DRow)
    (hall : ∀ x ∈ r :: rs, x.map Prod.fst = K) :
    dfColumns (r :: rs) = K := by
  unfold dfColumns dfColumnsFrom
  rw [hall r (List.mem_cons_self r rs), hK₀]
  exact dfColumnsFrom_const K hK rs
    (fun x hx => hall x (List.mem_cons_of_mem r hx))

/-- Claim C7: for a successful response rendered in `dataframe` format
(the builders raise no exception), the genes table has exactly the
columns Symbol, Name, Importance, UniProt with one row per gene in the
response, the pathways table has exactly the columns Pathway, P-value,
Significance, Confidence, Genes, and the displays are exactly those
non-empty tables. -/
theorem dataframe_columns (result : Json) (gs ps : List Json)
    (rows prows : List DRow)
    (hg : pyGet result "genes" (Json.arr []) = .ok (Json.arr gs))
    (hp : pyGet result "pathways" (Json.arr []) = .ok (Json.arr ps))
    (hrows : genesRows result = .ok rows)
    (hprows : pathwaysRows result = .ok prows) :
    rows.length = gs.length ∧
    (rows ≠ [] →
      dfColumns rows = ["Symbol", "Name", "Importance", "UniProt"]) ∧
    (prows ≠ [] →
      dfColumns prows
        = ["Pathway", "P-value", "Significance", "Confidence", "Genes"]) ∧
    displayAsDataframe result =
      ((if rows.isEmpty then [] else [Display.genesTable rows]) ++
        (if prows.isEmpty then [] else [Display.pathwaysTable prows]),
       none) := by
  have hm : exMapM geneRow gs = Except.ok rows := by
    unfold genesRows at hrows
    rw [hg] at hrows
    exact hrows
  have hm₂ : exMapM pathwayRow (ps.take 10) = Except.ok prows := by
    unfold pathwaysRows at hprows
    rw [hp] at hprows
    exact hprows
  refine ⟨exMapM_ok_length geneRow gs rows hm, ?_, ?_, ?_⟩
  · intro hne
    cases rows with
    | nil => exact absurd rfl hne
    | cons r rs =>
      refine dfColumns_const _ rfl rfl r rs (fun x hx => ?_)
      obtain ⟨a, _, ha⟩ := exMapM_ok_mem geneRow gs (r :: rs) hm x hx
      exact geneRow_keys a x ha
  · intro hne
    cases prows with
    | nil => exact absurd rfl hne
    | cons r rs =>
      refine dfColumns_const _ rfl rfl r rs (fun x hx => ?_)
      obtain ⟨a, _, ha⟩ :=
        exMapM_ok_mem pathwayRow (ps.take 10) (r :: rs) hm₂ x hx
      exact pathwayRow_keys a x ha
  · unfold displayAsDataframe
    rw [hrows, hprows]

theorem dataframe_columns_witness :
    ([[("Symbol", Cell.json Json.null), ("Name", Cell.json Json.null),
       ("Importance", Cell.percent (0 * 100)), ("UniProt", Cell.json Json.null)]]
      : List DRow).length = ([Json.obj []] : List Json).length ∧
    dfColumns [[("Symbol", Cell.json Json.null), ("Name", Cell.json Json.null),
      ("Importance", Cell.percent (0 * 100)), ("UniProt", Cell.json Json.null)]]
      = ["Symbol", "Name", "Importance", "UniProt"] ∧
    dfColumns [[("Pathway", Cell.json Json.null),
      ("P-value", Cell.json (Json.num 0)),
      ("Significance", Cell.json Json.null),
      ("Confidence", Cell.json Json.null), ("Genes", Cell.count 0)]]
      = ["Pathway", "P-value", "Significance", "Confidence", "Genes"] := by
  have h := dataframe_columns
    (Json.obj [("genes", Json.arr [Json.obj []]),
      ("pathways", Json.arr [Json.obj []])])
    [Json.obj []] [Json.obj []]
    [[("Symbol", Cell.json Json.null), ("Name", Cell.json Json.null),
      ("Importance", Cell.percent (0 * 100)), ("UniProt", Cell.json Json.null)]]
    [[("Pathway", Cell.json Json.null), ("P-value", Cell.json (Json.num 0)),
      ("Significance", Cell.json Json.null),
      ("Confidence", Cell.json Json.null), ("Genes", Cell.count 0)]]
    rfl rfl rfl rfl
  exact ⟨h.1, h.2.1 (List.cons_ne_nil _ _), h.2.2.1 (List.cons_ne_nil _ _)⟩

end GaiaLab








